import Mathlib

/-!
Verification of core behaviors of the quant QUIC endpoint against its
natural-language specification.  The definitions below are shallow embeddings
of the C sources: frame.c, conn.c/conn.h, the packet coder (pkt.c), the
recovery module (recovery.c/recovery.h) and the run loop.  Machine integers
are modelled as Nat, with explicit mod-2^64 arithmetic where wraparound can
matter; fallible paths return Option.
-/

namespace Quant

/-! ## Shared constants (pkt.h, recovery.h, frame.h) -/

/-- Value of the 64-bit all-ones sentinel UINT_T_MAX (uint_t is uint64_t). -/
def UINT_T_MAX : Nat := 2 ^ 64 - 1

/-- MAX_PKT_LEN (pkt.h). -/
def MAX_PKT_LEN : Nat := 1252

/-- MIN_INI_LEN (pkt.h): minimum on-wire size of a client Initial. -/
def MIN_INI_LEN : Nat := 1200

/-- Modelled from the spec: AEAD_LEN, the AEAD authentication-tag length, is
defined in the tls.h header which is not part of src/; the AEAD used through
picotls appends a 16-byte tag. -/
def AEAD_LEN : Nat := 16

/-- Modelled from the spec: NS_PER_MS, nanoseconds per millisecond, defined in
the external warpcore headers; timers in the core are kept in nanoseconds and
transport parameters in milliseconds. -/
def NS_PER_MS : Nat := 1000000

/-- kGranularity (recovery.h): 1 * NS_PER_MS. -/
def kGranularity : Nat := 1 * NS_PER_MS

/-- kPacketThreshold (recovery.h). -/
def kPacketThreshold : Nat := 3

/-- kMaxDatagramSize (recovery.h). -/
def kMaxDatagramSize : Nat := 1200

/-- kMinimumWindow (recovery.h): 2 * kMaxDatagramSize. -/
def kMinimumWindow : Nat := 2 * kMaxDatagramSize

/-- kInitialWindow (recovery.h): MIN(10 * kMaxDatagramSize,
MAX(2 * kMaxDatagramSize, 14720)). -/
def kInitialWindow : Nat := min (10 * kMaxDatagramSize) (max (2 * kMaxDatagramSize) 14720)

/-- kInitialRtt (recovery.h): 500 * NS_PER_MS. -/
def kInitialRtt : Nat := 500 * NS_PER_MS

/-- Long-header packet type Initial (pkt.h LH_INIT). -/
def LH_INIT : Nat := 0x00

/-- Long-header packet type 0-RTT (pkt.h LH_0RTT). -/
def LH_0RTT : Nat := 0x10

/-- Long-header packet type Handshake (pkt.h LH_HSHK). -/
def LH_HSHK : Nat := 0x20

/-- Long-header packet type Retry (pkt.h LH_RTRY). -/
def LH_RTRY : Nat := 0x30

/-- Short-header marker (pkt.h SH = HEAD_FIXD). -/
def SH : Nat := 0x40

/-- Transport error code FLOW_CONTROL (pkt.h ERR_FLOW_CONTROL). -/
def ERR_FLOW_CONTROL : Nat := 0x3

/-- Transport error code PROTOCOL_VIOLATION (pkt.h ERR_PROTOCOL_VIOLATION). -/
def ERR_PROTOCOL_VIOLATION : Nat := 0xa

/-- Frame type PADDING (frame.h FRM_PAD). -/
def FRM_PAD : Nat := 0x00

/-- Frame type ACK (frame.h FRM_ACK). -/
def FRM_ACK : Nat := 0x02

/-- Frame type ACK with ECN (frame.h FRM_ACE). -/
def FRM_ACE : Nat := 0x03

/-- Frame type CRYPTO (frame.h FRM_CRY). -/
def FRM_CRY : Nat := 0x06

/-- Frame type STREAM base code (frame.h FRM_STR). -/
def FRM_STR : Nat := 0x08

/-- Frame type CONNECTION_CLOSE, QUIC layer (frame.h FRM_CLQ). -/
def FRM_CLQ : Nat := 0x1c

/-- Frame type CONNECTION_CLOSE, application (frame.h FRM_CLA). -/
def FRM_CLA : Nat := 0x1d

/-- One past the largest frame type (frame.h FRM_MAX = FRM_CLA + 1). -/
def FRM_MAX : Nat := FRM_CLA + 1

/-! ## C1: PATH_RESPONSE handling and migration (frame.c dec_path_response_frame)

The connection fields involved are the four 8-byte buffers declared at
conn.h:244-248, in this order: path_chlg_in, path_resp_out, path_chlg_out,
path_resp_in.  They are C arrays of uint8_t, so inside q_conn they live at
distinct member offsets. -/

/-- Byte offset of the path_chlg_out member among the four path buffers
(conn.h:247, third of the four 8-byte arrays). -/
def PATH_CHLG_OUT_OFFSET : Nat := 16

/-- Byte offset of the path_resp_in member among the four path buffers
(conn.h:248, fourth of the four 8-byte arrays). -/
def PATH_RESP_IN_OFFSET : Nat := 24

/-- The condition of the guard at frame.c:910,
`c->path_resp_in != c->path_chlg_out`.  Both operands are uint8_t arrays, so
in C they decay to pointers to their first elements and the comparison is
between the addresses of two distinct members of the same struct, never
between the buffer contents. -/
def path_resp_ptr_ne_path_chlg_ptr : Bool :=
  PATH_RESP_IN_OFFSET != PATH_CHLG_OUT_OFFSET

/-- Connection state relevant to dec_path_response_frame (conn.h). Addresses
are abstracted to Nat. -/
structure MigrConn where
  tx_path_chlg : Bool
  path_chlg_out : List Nat
  path_resp_in : List Nat
  peer : Nat
  migr_peer : Nat
  deriving DecidableEq, Repr

/-- Embedding of dec_path_response_frame (frame.c:894-937), with the logging
elided.  decb_chk copies the frame's 8 data bytes into c->path_resp_in; an
unexpected response (tx_path_chlg unset) is ignored; then the guard at
frame.c:910 compares the two arrays with the C `!=` operator, i.e. by
address (see path_resp_ptr_ne_path_chlg_ptr); only if that comparison says
"equal" are tx_path_chlg cleared and migr_peer copied to peer. -/
def dec_path_response_frame (c : MigrConn) (data : List Nat) : MigrConn :=
  let c1 : MigrConn := { c with path_resp_in := data }
  if c1.tx_path_chlg = false then c1
  else if path_resp_ptr_ne_path_chlg_ptr then c1
  else { c1 with tx_path_chlg := false, peer := c1.migr_peer }

/-- Modelled from the spec: "A matching PATH_RESPONSE completes migration by
copying migr_peer to peer."  The comparison the spec describes is between the
8 data bytes of the PATH_RESPONSE and the stored path_chlg_out contents. -/
def dec_path_response_frame_spec (c : MigrConn) (data : List Nat) : MigrConn :=
  let c1 : MigrConn := { c with path_resp_in := data }
  if c1.tx_path_chlg = false then c1
  else if c1.path_resp_in ≠ c1.path_chlg_out then c1
  else { c1 with tx_path_chlg := false, peer := c1.migr_peer }

/-- A connection with a path challenge outstanding, whose challenge bytes the
incoming PATH_RESPONSE matches exactly. -/
def migrConnEx : MigrConn :=
  { tx_path_chlg := true
    path_chlg_out := [1, 2, 3, 4, 5, 6, 7, 8]
    path_resp_in := [0, 0, 0, 0, 0, 0, 0, 0]
    peer := 100
    migr_peer := 200 }

/-- C1: on receipt of a PATH_RESPONSE while tx_path_chlg is set, a match with
path_chlg_out should complete migration (clear tx_path_chlg, peer :=
migr_peer).  The code can never do this: the guard at frame.c:910 compares
the addresses of the two arrays, which are distinct members of q_conn, so
every PATH_RESPONSE — matching or not — is "ignoring"-ed.  The first two
conjuncts show the code leaves peer and tx_path_chlg unchanged on all inputs;
the last two evaluate the code and the spec's behavior on a concrete matching
response and exhibit the divergence. -/
theorem c1_path_response_never_completes_migration :
    (∀ (c : MigrConn) (data : List Nat),
      (dec_path_response_frame c data).peer = c.peer ∧
      (dec_path_response_frame c data).tx_path_chlg = c.tx_path_chlg) ∧
    (dec_path_response_frame migrConnEx [1, 2, 3, 4, 5, 6, 7, 8]).peer = 100 ∧
    (dec_path_response_frame_spec migrConnEx [1, 2, 3, 4, 5, 6, 7, 8]).peer = 200 ∧
    (dec_path_response_frame_spec migrConnEx [1, 2, 3, 4, 5, 6, 7, 8]).tx_path_chlg = false := by
  refine ⟨fun c data => ?_, by decide, by decide, by decide⟩
  unfold dec_path_response_frame path_resp_ptr_ne_path_chlg_ptr
  by_cases h : c.tx_path_chlg = false <;>
    simp [h, PATH_RESP_IN_OFFSET, PATH_CHLG_OUT_OFFSET]

/-! ## C2: stream/crypto flow-control check (frame.c dec_stream_or_crypto_frame)

The single FLOW_CONTROL close for inbound stream data is the check at
frame.c:400-405, reached at the `done:` label of dec_stream_or_crypto_frame. -/

/-- Embedding of the check at frame.c:400-405: after the data has been
delivered (or ignored), the connection is err_close'd with ERR_FLOW_CONTROL
iff the frame has an associated stream (m->strm nonzero), the frame is not a
CRYPTO frame, and strm_off + strm_data_len exceeds the stream's in_data_max.
Returns the transport error code raised, if any. -/
def stream_fc_close (hasStrm : Bool) (type strm_off strm_data_len in_data_max : Nat) :
    Option Nat :=
  if hasStrm && (type != FRM_CRY) && decide (in_data_max < strm_off + strm_data_len) then
    some ERR_FLOW_CONTROL
  else
    none

/-- C2 counterexample: a CRYPTO frame whose offset plus length exceeds the
crypto stream's in_data_max does not close the connection: the check at
frame.c:401 explicitly excludes type FRM_CRY.  The claim requires a
FLOW_CONTROL (0x3) close here. -/
theorem c2_crypto_frame_exempt_from_fc :
    1000 < 0 + 2000 ∧ stream_fc_close true FRM_CRY 0 2000 1000 = none := by
  decide

/-- C2 (amended): only STREAM frames are subject to the inbound flow-control
check: a received frame closes the connection with transport error
FLOW_CONTROL (0x3) iff it has an associated stream, it is not a CRYPTO frame,
and its offset plus data length exceeds the stream's in_data_max; CRYPTO
frames are exempt. -/
theorem c2_stream_fc_close_iff (hasStrm : Bool) (type strm_off strm_data_len in_data_max : Nat) :
    stream_fc_close hasStrm type strm_off strm_data_len in_data_max = some ERR_FLOW_CONTROL ↔
      hasStrm = true ∧ type ≠ FRM_CRY ∧ in_data_max < strm_off + strm_data_len := by
  unfold stream_fc_close
  rcases hasStrm with _ | _ <;>
    by_cases ht : type = FRM_CRY <;>
      by_cases hlt : in_data_max < strm_off + strm_data_len <;>
        simp [ht, hlt]

/-! ## C3: packet-number assignment and resets (pkt.c enc_pkt, conn.c
vneg_or_rtry_resp / rx_pkt)

Per packet-number space, the TX side is the lg_sent counter: enc_pkt
(pkt.c:356-360) assigns `m->hdr.nr = pn->lg_sent = 0` when lg_sent still
holds the UINT_T_MAX sentinel and `m->hdr.nr = ++pn->lg_sent` otherwise
(Retry packets carry no packet number and are excluded).  The lg_sent
counter is modelled as Option Nat, none standing for the sentinel. -/

/-- Packet-number assignment on a non-Retry TX (pkt.c:356-360): returns the
number placed in the header and the new lg_sent. -/
def tx_next_nr : Option Nat → Nat × Option Nat
  | none => (0, some 0)
  | some n => (n + 1, some (n + 1))

/-- Modelled from the spec: reset_pn, whose definition (pn.c) is not under
src/ — conn.c:893 calls it for all three spaces from vneg_or_rtry_resp.
Per the spec a reset returns the space to its initial state, so numbering
restarts from packet number 0; on the TX side this clears lg_sent back to
the sentinel. -/
def reset_pn_tx : Option Nat → Option Nat := fun _ => none

/-- Events affecting a space's TX numbering that the cited code performs:
a non-Retry transmission (enc_pkt), acceptance of a Version Negotiation
packet (conn.c:1071, vneg_or_rtry_resp(c, true)) and acceptance of a Retry
packet (conn.c:1093, vneg_or_rtry_resp(c, false)). -/
inductive PnEvent
  | tx
  | vnegResp
  | rtryResp
  deriving DecidableEq, Repr

/-- One event's effect on lg_sent.  vneg_or_rtry_resp (conn.c:878-910)
resets all packet-number spaces unconditionally — its is_vneg argument only
gates the CID reset — so both vnegResp and rtryResp reset. -/
def pn_event_step : Option Nat → PnEvent → Option Nat
  | s, .tx => (tx_next_nr s).2
  | s, .vnegResp => reset_pn_tx s
  | s, .rtryResp => reset_pn_tx s

/-- The packet numbers emitted while running a list of events. -/
def pn_run_nrs : Option Nat → List PnEvent → List Nat
  | _, [] => []
  | s, PnEvent.tx :: es => (tx_next_nr s).1 :: pn_run_nrs (tx_next_nr s).2 es
  | s, e :: es => pn_run_nrs (pn_event_step s e) es

/-- C3 counterexample: on the trace tx, tx, Retry-accepted, tx, the space
emits packet numbers 0, 1, 0 — not strictly increasing over the
connection's lifetime — and the reset that caused it happened at a Retry,
not at version negotiation (pn_event_step resets lg_sent on rtryResp). -/
theorem c3_retry_resets_pn_spaces :
    pn_run_nrs none [PnEvent.tx, PnEvent.tx, PnEvent.rtryResp, PnEvent.tx] = [0, 1, 0] ∧
    ¬ List.Chain' (· < ·) [0, 1, 0] ∧
    pn_event_step (some 1) PnEvent.rtryResp = none ∧
    PnEvent.rtryResp ≠ PnEvent.vnegResp := by
  refine ⟨rfl, ?_, rfl, by decide⟩
  intro h
  rcases List.chain'_cons.1 h with ⟨_, h2⟩
  rcases List.chain'_cons.1 h2 with ⟨h10, _⟩
  omega

/-- Helper for C3: emitted numbers continue strictly above the current
lg_sent value. -/
theorem pn_run_nrs_tx_chain (es : List PnEvent) (he : ∀ e ∈ es, e = PnEvent.tx) :
    ∀ s : Option Nat,
      List.Chain' (· < ·) (pn_run_nrs s es) ∧
      (∀ n : Nat, s = some n → ∀ x ∈ pn_run_nrs s es, n < x) := by
  induction es with
  | nil => intro s; exact ⟨List.chain'_nil, by intro n _ x hx; cases hx⟩
  | cons e es ih =>
    intro s
    have he' : e = PnEvent.tx := he e (List.mem_cons_self e es)
    subst he'
    have hes : ∀ e ∈ es, e = PnEvent.tx := fun e hmem => he e (List.mem_cons_of_mem _ hmem)
    cases s with
    | none =>
      have h0 := ih hes (some 0)
      refine ⟨?_, by intro n hn; cases hn⟩
      simp only [pn_run_nrs, tx_next_nr]
      exact List.chain'_cons'.2 ⟨fun y hy => (h0.2 0 rfl y (List.mem_of_mem_head? hy)), h0.1⟩
    | some n =>
      have h1 := ih hes (some (n + 1))
      constructor
      · simp only [pn_run_nrs, tx_next_nr]
        exact List.chain'_cons'.2
          ⟨fun y hy => (h1.2 (n + 1) rfl y (List.mem_of_mem_head? hy)), h1.1⟩
      · intro m hm x hx
        cases hm
        simp only [pn_run_nrs, tx_next_nr] at hx
        rcases List.mem_cons.1 hx with h | h
        · omega
        · have := h1.2 (n + 1) rfl x h
          omega

/-- C3 (amended): between resets the packet numbers of successive
transmissions within a space are strictly increasing — on any stretch of
events that contains no reset, the emitted numbers form a strictly
increasing chain — and an event resets the space's numbering iff it is
version negotiation or a Retry response (both call vneg_or_rtry_resp,
which resets all packet-number spaces). -/
theorem c3_pn_strictly_increasing_between_resets :
    (∀ (s : Option Nat) (es : List PnEvent), (∀ e ∈ es, e = PnEvent.tx) →
      List.Chain' (· < ·) (pn_run_nrs s es)) ∧
    (∀ (n : Nat) (e : PnEvent),
      pn_event_step (some n) e = none ↔ (e = PnEvent.vnegResp ∨ e = PnEvent.rtryResp)) := by
  constructor
  · intro s es he
    exact (pn_run_nrs_tx_chain es he s).1
  · intro n e
    cases e <;> simp [pn_event_step, tx_next_nr, reset_pn_tx]

/-- C3 witness: the amended theorem applied to the concrete trace of two
transmissions from a fresh space, and to a Retry reset from lg_sent = 5. -/
theorem c3_pn_strictly_increasing_between_resets_witness :
    List.Chain' (· < ·) (pn_run_nrs none [PnEvent.tx, PnEvent.tx]) ∧
    (pn_event_step (some 5) PnEvent.rtryResp = none ↔
      (PnEvent.rtryResp = PnEvent.vnegResp ∨ PnEvent.rtryResp = PnEvent.rtryResp)) :=
  ⟨c3_pn_strictly_increasing_between_resets.1 none [PnEvent.tx, PnEvent.tx] (by decide),
   c3_pn_strictly_increasing_between_resets.2 5 PnEvent.rtryResp⟩

/-! ## C5: RTT estimation (recovery.c update_rtt)

State of rec.cur relevant to update_rtt; all times in nanoseconds,
max_ack_del (tp_out.max_ack_del) in milliseconds as in the C struct. -/

/-- The rec.cur fields read and written by update_rtt (recovery.h cc_state). -/
structure RttState where
  min_rtt : Nat
  srtt : Nat
  rttvar : Nat
  latest_rtt : Nat
  deriving DecidableEq, Repr

/-- Embedding of update_rtt (recovery.c:572-599).  On the first sample
(srtt == 0) min_rtt and srtt become latest_rtt and rttvar latest_rtt/2.
Otherwise min_rtt is lowered to latest_rtt if smaller, the ACK delay is
clamped to tp_out.max_ack_del and scaled by NS_PER_MS, and the delay is
subtracted from latest_rtt only when latest_rtt > min_rtt + ack_del;
then rttvar := 3*rttvar/4 + |srtt - adj_rtt|/4 and
srtt := 7*srtt/8 + adj_rtt/8 in integer arithmetic. -/
def update_rtt (r : RttState) (ack_del max_ack_del : Nat) : RttState :=
  if r.srtt = 0 then
    { r with min_rtt := r.latest_rtt, srtt := r.latest_rtt, rttvar := r.latest_rtt / 2 }
  else
    let min_rtt := min r.min_rtt r.latest_rtt
    let d := min ack_del max_ack_del * NS_PER_MS
    let adj_rtt := if min_rtt + d < r.latest_rtt then r.latest_rtt - d else r.latest_rtt
    { min_rtt := min_rtt
      srtt := 7 * r.srtt / 8 + adj_rtt / 8
      rttvar := 3 * r.rttvar / 4 + ((r.srtt : Int) - (adj_rtt : Int)).natAbs / 4
      latest_rtt := r.latest_rtt }

/-- The RTT update as the claim words it, for comparison: identical except
that the ACK delay is subtracted whenever latest_rtt minus the clamped
delay is positive, with no reference to min_rtt. -/
def update_rtt_claim (r : RttState) (ack_del max_ack_del : Nat) : RttState :=
  if r.srtt = 0 then
    { r with min_rtt := r.latest_rtt, srtt := r.latest_rtt, rttvar := r.latest_rtt / 2 }
  else
    let min_rtt := min r.min_rtt r.latest_rtt
    let d := min ack_del max_ack_del * NS_PER_MS
    let adj_rtt := if d < r.latest_rtt then r.latest_rtt - d else r.latest_rtt
    { min_rtt := min_rtt
      srtt := 7 * r.srtt / 8 + adj_rtt / 8
      rttvar := 3 * r.rttvar / 4 + ((r.srtt : Int) - (adj_rtt : Int)).natAbs / 4
      latest_rtt := r.latest_rtt }

/-- The adjusted RTT the code computes on a non-first sample: the clamped,
ns-scaled ACK delay is subtracted from latest_rtt only when latest_rtt
exceeds the (updated) min_rtt plus that delay. -/
def adjRtt (r : RttState) (ack_del max_ack_del : Nat) : Nat :=
  let min_rtt := min r.min_rtt r.latest_rtt
  let d := min ack_del max_ack_del * NS_PER_MS
  if min_rtt + d < r.latest_rtt then r.latest_rtt - d else r.latest_rtt

/-- A non-first RTT sample: srtt 3 ms, rttvar 1 ms, min_rtt 2 ms, and a new
latest_rtt of 2 ms, with a 1 ms ACK delay (max_ack_del 25 ms). -/
def rttEx : RttState :=
  { min_rtt := 2000000, srtt := 3000000, rttvar := 1000000, latest_rtt := 2000000 }

/-- C5 counterexample: on rttEx with ack_del = 1, the claim's rule subtracts
the delay (latest_rtt - delay = 1 ms > 0), giving srtt 2750000 and rttvar
1250000, but the code subtracts only when latest_rtt > min_rtt + delay,
which fails here, so it gives srtt 2875000 and rttvar 1000000. -/
theorem c5_rtt_adjustment_differs :
    update_rtt rttEx 1 25 ≠ update_rtt_claim rttEx 1 25 ∧
    (update_rtt rttEx 1 25).srtt = 2875000 ∧
    (update_rtt_claim rttEx 1 25).srtt = 2750000 := by
  refine ⟨by decide, by decide, by decide⟩

/-- C5 (amended): on the first sample srtt := latest_rtt and rttvar :=
latest_rtt/2; on every later sample, with min_rtt first lowered to
latest_rtt if smaller and d := min(peer_ack_delay, peer_max_ack_delay)
(scaled to ns), adj_rtt := latest_rtt - d when latest_rtt exceeds
min_rtt + d and latest_rtt otherwise; then rttvar := 3*rttvar/4 +
|srtt - adj_rtt|/4 and srtt := 7*srtt/8 + adj_rtt/8. -/
theorem c5_update_rtt_characterization (r : RttState) (ack_del max_ack_del : Nat) :
    (r.srtt = 0 →
      update_rtt r ack_del max_ack_del =
        { r with min_rtt := r.latest_rtt, srtt := r.latest_rtt,
                 rttvar := r.latest_rtt / 2 }) ∧
    (r.srtt ≠ 0 →
      (update_rtt r ack_del max_ack_del).min_rtt = min r.min_rtt r.latest_rtt ∧
      (update_rtt r ack_del max_ack_del).srtt =
        7 * r.srtt / 8 + adjRtt r ack_del max_ack_del / 8 ∧
      (update_rtt r ack_del max_ack_del).rttvar =
        3 * r.rttvar / 4 +
          ((r.srtt : Int) - (adjRtt r ack_del max_ack_del : Int)).natAbs / 4) := by
  constructor
  · intro h; simp [update_rtt, h]
  · intro h; simp [update_rtt, adjRtt, h]

/-- C5 witness: the characterization applied to rttEx (non-first sample)
and to a first sample. -/
theorem c5_update_rtt_characterization_witness :
    (update_rtt rttEx 1 25).srtt = 7 * rttEx.srtt / 8 + adjRtt rttEx 1 25 / 8 ∧
    update_rtt { min_rtt := 0, srtt := 0, rttvar := 0, latest_rtt := 8 } 1 25 =
      { min_rtt := 8, srtt := 8, rttvar := 4, latest_rtt := 8 } := by
  constructor
  · exact ((c5_update_rtt_characterization rttEx 1 25).2 (by decide)).2.1
  · exact (c5_update_rtt_characterization
      { min_rtt := 0, srtt := 0, rttvar := 0, latest_rtt := 8 } 1 25).1 rfl

/-! ## C4: loss detection (recovery.c detect_lost_pkts)

detect_lost_pkts walks pn->sent_pkts; a packet with nr above pn->lg_acked is
skipped, and one that remains is marked lost when it was sent at or before
loop_now() - loss_del or when lg_acked >= nr + kPacketThreshold.  lg_acked
holds the UINT_T_MAX sentinel until the first ACK arrives. -/

/-- The fields of a sent packet's pkt_meta that detect_lost_pkts reads. -/
structure SentMeta where
  nr : Nat
  t : Nat
  deriving DecidableEq, Repr

/-- The pn_space fields that detect_lost_pkts reads. -/
structure LossPn where
  sent : List SentMeta
  lg_acked : Nat
  abandoned : Bool
  deriving DecidableEq, Repr

/-- loss_del (recovery.c:359-360): MAX(kGranularity,
9 * MAX(latest_rtt, srtt) / 8), integer division. -/
def loss_del (latest_rtt srtt : Nat) : Nat :=
  max kGranularity (9 * max latest_rtt srtt / 8)

/-- lost_send_t (recovery.c:363): loop_now() - loss_del in uint64_t
arithmetic, which wraps around when loss_del exceeds now. -/
def lost_send_t (now lossDel : Nat) : Nat :=
  (now + (2 ^ 64 - lossDel % 2 ^ 64)) % 2 ^ 64

/-- The per-packet decision of detect_lost_pkts (recovery.c:381-387): not
skipped by `nr > lg_acked`, and sent at or before lost_send_t or trailing
the largest acknowledged number by at least kPacketThreshold
(`pn->lg_acked >= m->hdr.nr + kPacketThreshold`, uint64_t addition). -/
def pkt_lost_cond (now latest_rtt srtt lg_acked : Nat) (m : SentMeta) : Bool :=
  decide (m.nr ≤ lg_acked) &&
    (decide (m.t ≤ lost_send_t now (loss_del latest_rtt srtt)) ||
     decide ((m.nr + kPacketThreshold) % 2 ^ 64 ≤ lg_acked))

/-- The set of packet numbers detect_lost_pkts marks lost in one invocation
(recovery.c:350-410): nothing when the space is abandoned, else the numbers
of the sent packets satisfying pkt_lost_cond. -/
def detect_lost_nrs (now latest_rtt srtt : Nat) (pn : LossPn) : List Nat :=
  if pn.abandoned then []
  else ((pn.sent.filter (pkt_lost_cond now latest_rtt srtt pn.lg_acked)).map SentMeta.nr)

/-- The claim's loss condition, for comparison: more than kPacketThreshold
higher-numbered packets acknowledged (acked is the space's set of
acknowledged numbers), or sent before loss_del ago. -/
def claim_lost_cond (now latest_rtt srtt : Nat) (acked : List Nat) (m : SentMeta) : Bool :=
  decide (kPacketThreshold < (acked.filter (fun a => decide (m.nr < a))).length) ||
    decide (m.t ≤ now - loss_del latest_rtt srtt)

/-- A space in which only packet number 1 has been acknowledged while packet
number 5, sent at time 0, is still outstanding. -/
def lossPnEx : LossPn :=
  { sent := [{ nr := 5, t := 0 }], lg_acked := 1, abandoned := false }

/-- C4 counterexample: at now = 10^10 ns with srtt = latest_rtt = 10^9 ns,
packet 5 of lossPnEx was sent far more than loss_del ago, so by the claim it
must be declared lost; detect_lost_pkts instead skips it because its number
exceeds lg_acked = 1 (recovery.c:381), and declares nothing lost. -/
theorem c4_old_pkt_above_lg_acked_not_lost :
    claim_lost_cond (10 ^ 10) (10 ^ 9) (10 ^ 9) [1] { nr := 5, t := 0 } = true ∧
    detect_lost_nrs (10 ^ 10) (10 ^ 9) (10 ^ 9) lossPnEx = [] := by
  refine ⟨by decide, by decide⟩

/-- C4 (amended): in a non-abandoned space whose sent packet numbers are
unique and below 2^62 (as QUIC packet numbers are), with loss_del ≤ now <
2^64, a sent packet is declared lost by detect_lost_pkts exactly when its
number does not exceed the space's largest acknowledged number (lg_acked,
with the UINT_T_MAX sentinel before any ACK) and either lg_acked ≥ nr +
kPacketThreshold or it was sent at or before now - loss_del. -/
theorem c4_detect_lost_characterization (now latest_rtt srtt : Nat) (pn : LossPn)
    (m : SentMeta) (hm : m ∈ pn.sent) (hab : pn.abandoned = false)
    (hnodup : (pn.sent.map SentMeta.nr).Nodup)
    (hnr : m.nr < 2 ^ 62)
    (hnow : now < 2 ^ 64) (hdel : loss_del latest_rtt srtt ≤ now) :
    m.nr ∈ detect_lost_nrs now latest_rtt srtt pn ↔
      (m.nr ≤ pn.lg_acked ∧
        (m.nr + kPacketThreshold ≤ pn.lg_acked ∨
         m.t ≤ now - loss_del latest_rtt srtt)) := by
  have hld : loss_del latest_rtt srtt % 2 ^ 64 = loss_del latest_rtt srtt :=
    Nat.mod_eq_of_lt (lt_of_le_of_lt hdel hnow)
  have hlst : lost_send_t now (loss_del latest_rtt srtt) =
      now - loss_del latest_rtt srtt := by
    unfold lost_send_t
    rw [hld]
    have h1 : now + (2 ^ 64 - loss_del latest_rtt srtt) =
        (now - loss_del latest_rtt srtt) + 2 ^ 64 := by omega
    rw [h1, Nat.add_mod_right]
    exact Nat.mod_eq_of_lt (by omega)
  have hmod : (m.nr + kPacketThreshold) % 2 ^ 64 = m.nr + kPacketThreshold :=
    Nat.mod_eq_of_lt (by unfold kPacketThreshold; omega)
  unfold detect_lost_nrs
  rw [hab]
  simp only [Bool.false_eq_true, if_false, List.mem_map]
  constructor
  · rintro ⟨p, hp, hpnr⟩
    have hpm : p = m := by
      have hpmem : p ∈ pn.sent := List.mem_of_mem_filter hp
      exact List.inj_on_of_nodup_map hnodup hpmem hm hpnr
    subst hpm
    have hc := List.of_mem_filter hp
    unfold pkt_lost_cond at hc
    rw [hlst, hmod] at hc
    simp only [Bool.and_eq_true, Bool.or_eq_true, decide_eq_true_eq] at hc
    tauto
  · rintro ⟨hle, hcond⟩
    refine ⟨m, List.mem_filter.2 ⟨hm, ?_⟩, rfl⟩
    unfold pkt_lost_cond
    rw [hlst, hmod]
    simp only [Bool.and_eq_true, Bool.or_eq_true, decide_eq_true_eq]
    tauto

/-- C4 witness: the characterization evaluated on lossPnEx's packet 5, which
is not declared lost, and the resulting right-hand side refuted
concretely. -/
theorem c4_detect_lost_characterization_witness :
    ¬ ((5 : Nat) ≤ lossPnEx.lg_acked ∧
        ((5 : Nat) + kPacketThreshold ≤ lossPnEx.lg_acked ∨
         (0 : Nat) ≤ 10 ^ 10 - loss_del (10 ^ 9) (10 ^ 9))) ∧
    ¬ ((5 : Nat) ∈ detect_lost_nrs (10 ^ 10) (10 ^ 9) (10 ^ 9) lossPnEx) := by
  have h := c4_detect_lost_characterization (10 ^ 10) (10 ^ 9) (10 ^ 9) lossPnEx
    { nr := 5, t := 0 } (by decide) rfl (by decide) (by decide) (by decide) (by decide)
  constructor
  · decide
  · intro hmem
    have := h.1 hmem
    revert this
    decide

/-! ## C6: fatal error handling (conn.c err_close and enter_closing) -/

/-- Connection states (conn.h:130-133). -/
inductive ConnState
  | clsd
  | idle
  | opng
  | estb
  | qlse
  | clsg
  | drng
  deriving DecidableEq, Repr

/-- The q_conn fields that err_close and enter_closing touch.  The trace
field records the successive conn_to_state transitions; alarm bookkeeping is
modelled by the pending flags and the armed durations (tx_w_immediate stands
for timeouts_add(tx_w, 0)). -/
structure ErrConn where
  state : ConnState
  err_code : Nat
  err_frm : Nat
  err_reason : String
  needs_tx : Bool
  closing_alarm_pending : Bool
  closing_alarm_dur : Nat
  tx_w_immediate : Bool
  srtt : Nat
  rttvar : Nat
  trace : List ConnState
  deriving DecidableEq, Repr

/-- conn_to_state (conn.h:281-293): the single place the state field
mutates; the trace records each transition. -/
def conn_to_state (c : ErrConn) (s : ConnState) : ErrConn :=
  { c with state := s, trace := c.trace ++ [s] }

/-- Embedding of enter_closing (conn.c:1689-1727): nothing when already
clsg; all alarms stopped; for an error-free idle/opng connection only an
immediate closing alarm (modelled as duration 0); otherwise the closing
timer is armed to 3 * (srtt, or kInitialRtt before any sample) + 4 * rttvar
and, unless draining, needs_tx is set, the state moves to clsg and an
immediate TX is scheduled on tx_w. -/
def enter_closing (c : ErrConn) : ErrConn :=
  if c.state = ConnState.clsg then c
  else
    let c1 : ErrConn := { c with closing_alarm_pending := false, tx_w_immediate := false }
    if (c1.state = ConnState.idle ∨ c1.state = ConnState.opng) ∧ c1.err_code = 0 then
      { c1 with closing_alarm_pending := true, closing_alarm_dur := 0 }
    else
      let dur := 3 * (if c1.srtt = 0 then kInitialRtt else c1.srtt) + 4 * c1.rttvar
      let c2 : ErrConn := { c1 with closing_alarm_pending := true, closing_alarm_dur := dur }
      if c2.state ≠ ConnState.drng then
        { conn_to_state { c2 with needs_tx := true } ConnState.clsg with tx_w_immediate := true }
      else c2

/-- Embedding of err_close (conn.c:1604-1650): when an error is already
recorded the call returns without any effect; otherwise the reason is
recorded, the state moves to qlse, code and frame type are recorded,
needs_tx is set and enter_closing runs. -/
def err_close (c : ErrConn) (code : Nat) (frm : Nat) (reason : String) : ErrConn :=
  if c.err_code ≠ 0 then c
  else
    let c1 : ErrConn := { c with err_reason := reason }
    let c2 := conn_to_state c1 ConnState.qlse
    let c3 : ErrConn := { c2 with err_code := code, err_frm := frm, needs_tx := true }
    enter_closing c3

/-- C6: err_close records code, frame type and reason only when no error is
recorded yet — with an existing error it changes nothing at all — and on the
first error it transitions the connection to qlse, arms an immediate TX
(needs_tx plus the zero-delay tx_w timeout) for the CONNECTION_CLOSE, and
then moves the connection to clsg. -/
theorem c6_err_close_first_error_wins (c : ErrConn) (code frm : Nat) (reason : String) :
    (c.err_code ≠ 0 → err_close c code frm reason = c) ∧
    (c.err_code = 0 →
      (err_close c code frm reason).err_code = code ∧
      (err_close c code frm reason).err_frm = frm ∧
      (err_close c code frm reason).err_reason = reason ∧
      (err_close c code frm reason).needs_tx = true ∧
      (err_close c code frm reason).tx_w_immediate = true ∧
      (err_close c code frm reason).state = ConnState.clsg ∧
      (err_close c code frm reason).trace =
        c.trace ++ [ConnState.qlse, ConnState.clsg]) := by
  constructor
  · intro h
    unfold err_close
    simp [h]
  · intro h
    unfold err_close enter_closing conn_to_state
    simp [h]

/-- C6 witness: err_close applied to an established connection with no prior
error, and to one that already recorded error 0x7. -/
theorem c6_err_close_first_error_wins_witness :
    ((err_close
        { state := ConnState.estb, err_code := 0, err_frm := 0, err_reason := "",
          needs_tx := false, closing_alarm_pending := false, closing_alarm_dur := 0,
          tx_w_immediate := false, srtt := 0, rttvar := 0, trace := [] }
        0xa 0x6 "reserved bits").state = ConnState.clsg) ∧
    (err_close
        { state := ConnState.clsg, err_code := 0x7, err_frm := 0, err_reason := "first",
          needs_tx := true, closing_alarm_pending := true, closing_alarm_dur := 5,
          tx_w_immediate := true, srtt := 0, rttvar := 0, trace := [] }
        0xa 0x6 "second" =
      { state := ConnState.clsg, err_code := 0x7, err_frm := 0, err_reason := "first",
        needs_tx := true, closing_alarm_pending := true, closing_alarm_dur := 5,
        tx_w_immediate := true, srtt := 0, rttvar := 0, trace := [] }) :=
  ⟨((c6_err_close_first_error_wins _ 0xa 0x6 "reserved bits").2 rfl).2.2.2.2.2.1,
   (c6_err_close_first_error_wins _ 0xa 0x6 "second").1 (by decide)⟩

/-! ## C7: frame-in-packet-type validation (frame.c dec_frames)

The only frame-type validity check in dec_frames is at frame.c:1139-1148: a
static allow-set lh_ok of {CRYPTO, ACK, ACK_ECN, PADDING, CONNECTION_CLOSE
quic/app}, enforced solely for Initial and Handshake packets with
PROTOCOL_VIOLATION; every other packet type, 0-RTT included, is not
restricted, and an ACK frame is then dispatched to dec_ack_frame which has
no packet-type restriction either. -/

/-- The frame types allowed in Initial and Handshake packets
(frame.c:1140-1142 lh_ok). -/
def lh_ok : List Nat := [FRM_CRY, FRM_ACK, FRM_ACE, FRM_PAD, FRM_CLQ, FRM_CLA]

/-- Embedding of the check at frame.c:1143-1148: the packet is rejected with
PROTOCOL_VIOLATION iff it is an Initial or Handshake packet carrying a known
frame type outside lh_ok. -/
def frame_type_rejected (pkt_type frm_type : Nat) : Bool :=
  ((pkt_type == LH_INIT) || (pkt_type == LH_HSHK)) &&
    decide (frm_type < FRM_MAX) && !(lh_ok.contains frm_type)

/-- C7 counterexample: an ACK frame in a 0-RTT packet passes the only
frame-in-packet-type check in dec_frames and is processed; the claim
requires the packet to be rejected and the connection closed. -/
theorem c7_0rtt_ack_not_rejected :
    frame_type_rejected LH_0RTT FRM_ACK = false := by decide

/-- C7 (amended): dec_frames rejects a frame for its packet type exactly
when the packet is an Initial or a Handshake packet and the (known) frame
type is outside {PADDING, ACK, ACK_ECN, CRYPTO, CONNECTION_CLOSE quic/app};
0-RTT packets are not restricted, so an ACK frame in a 0-RTT packet is
accepted and processed. -/
theorem c7_frame_type_rejected_iff (pkt_type frm_type : Nat) :
    frame_type_rejected pkt_type frm_type = true ↔
      ((pkt_type = LH_INIT ∨ pkt_type = LH_HSHK) ∧ frm_type < FRM_MAX ∧
        frm_type ∉ lh_ok) := by
  unfold frame_type_rejected
  have hmem : lh_ok.contains frm_type = true ↔ frm_type ∈ lh_ok := List.elem_iff
  simp only [Bool.and_eq_true, Bool.or_eq_true, beq_iff_eq, decide_eq_true_eq,
    Bool.not_eq_true']
  rw [← Bool.not_eq_true, hmem.not]
  tauto

/-! ## C8: client Initial padding (pkt.c enc_pkt, part_001:440-560)

The tail of enc_pkt after the frame payload has been written: the
client-side padding of Initials and first 0-RTT packets
(part_001:503-514), the PING insertion for short-header packets, the
fallback ACK when the payload would be empty, the four-byte
header-protection sample padding, and enc_aead (tls.c), which appends the
AEAD tag so that the protected packet is AEAD_LEN bytes longer than the
unprotected one.  Buffer positions are byte offsets from the start of the
packet. -/

/-- The enc_pkt inputs that decide the final padding. pos is the write
position after all frames have been encoded; txq_first_len is the length of
the first datagram queued in c->txq (0 when the queue is empty), used to
size the 0-RTT padding. -/
structure EncPkt where
  is_clnt : Bool
  enc_data : Bool
  try_0rtt : Bool
  hdr_type : Nat
  hdr_len : Nat
  pkt_nr_pos : Nat
  pos : Nat
  sid_nonneg : Bool
  txq_first_len : Nat
  tx_ack_eliciting : Bool
  ack_eliciting : Bool
  deriving DecidableEq, Repr

/-- enc_padding_frame (frame.c:1354-1366) invoked as
enc_padding_frame(&pos, max_end, m, max_end - pos): a zero length is a
no-op, otherwise the gap is filled with PAD bytes and pos advances to the
target; a position past the target would fail the buffer-overflow ensure,
modelled as none. -/
def enc_padding_to (pos target : Nat) : Option Nat :=
  if pos ≤ target then some target else none

/-- Embedding of the tail of enc_pkt (part_001:496-545).  Retry packets jump
straight to tx and are copied without AEAD.  For the others: the client
Initial padding to MIN_INI_LEN - AEAD_LEN when 0-RTT is not attempted, the
first-0-RTT padding against the queued Initial's length otherwise, the PING
for short-header packets that must elicit an ACK, the fallback ACK frame for
an otherwise empty payload (its encoded size depends on the ACK ranges and
is left unmodelled, hence none), the padding keeping at least 4 bytes
between the packet-number field and the payload end, and finally enc_aead.
Returns the on-wire length of the protected packet. -/
def enc_pkt_tail (e : EncPkt) : Option Nat :=
  if e.hdr_type == LH_RTRY then some e.pos
  else
    (if e.is_clnt && e.enc_data && !e.try_0rtt && (e.hdr_type == LH_INIT) then
        enc_padding_to e.pos (MIN_INI_LEN - AEAD_LEN)
      else some e.pos).bind fun p1 =>
    (if e.is_clnt && e.enc_data && e.try_0rtt && (e.hdr_type == LH_0RTT) && e.sid_nonneg then
        enc_padding_to p1 (MIN_INI_LEN - AEAD_LEN - e.txq_first_len)
      else some p1).bind fun p2 =>
    let p3 := if e.tx_ack_eliciting && !e.ack_eliciting && (e.hdr_type == SH) then p2 + 1 else p2
    if p3 == e.hdr_len then none
    else
      let p4 := if p3 - e.pkt_nr_pos < 4 then e.pkt_nr_pos + 4 else p3
      some (p4 + AEAD_LEN)

/-- C8: when a client Initial that opens the connection is encoded with
0-RTT not attempted, the padding step fills the payload to
MIN_INI_LEN - AEAD_LEN bytes, and after the AEAD tag the protected packet
on the wire is exactly 1200 bytes.  The hypotheses record that the written
frames fit in the Initial (pos at most the padding target, with the header
before it and the packet-number field at least 4 bytes before it). -/
theorem c8_client_initial_padded_to_1200 (e : EncPkt)
    (hc : e.is_clnt = true) (hd : e.enc_data = true) (hz : e.try_0rtt = false)
    (ht : e.hdr_type = LH_INIT)
    (hpos : e.pos ≤ MIN_INI_LEN - AEAD_LEN)
    (hhdr : e.hdr_len < MIN_INI_LEN - AEAD_LEN)
    (hpn : e.pkt_nr_pos + 4 ≤ MIN_INI_LEN - AEAD_LEN) :
    enc_pkt_tail e = some MIN_INI_LEN := by
  unfold enc_pkt_tail enc_padding_to
  rw [hc, hd, hz, ht]
  have hne : ¬ (LH_INIT == LH_RTRY) = true := by decide
  have hsh : ¬ (LH_INIT == SH) = true := by decide
  simp only [hne, Bool.not_false, Bool.and_true, Bool.true_and, Bool.and_false,
    Bool.false_and, if_false, beq_self_eq_true, if_true, hsh, Bool.and_eq_true,
    if_pos hpos, Option.some_bind, Bool.false_eq_true]
  have h1 : ¬ ((MIN_INI_LEN - AEAD_LEN : Nat) == e.hdr_len) = true := by
    simp only [beq_iff_eq]
    omega
  rw [if_neg h1]
  have h2 : ¬ (MIN_INI_LEN - AEAD_LEN - e.pkt_nr_pos < 4) := by omega
  rw [if_neg h2]
  have : MIN_INI_LEN - AEAD_LEN + AEAD_LEN = MIN_INI_LEN := by decide
  rw [this]

/-- C8 witness: a concrete client Initial with a 22-byte header whose frames
end at offset 300 encodes to exactly 1200 bytes on the wire. -/
theorem c8_client_initial_padded_to_1200_witness :
    enc_pkt_tail
      { is_clnt := true, enc_data := true, try_0rtt := false, hdr_type := LH_INIT,
        hdr_len := 22, pkt_nr_pos := 18, pos := 300, sid_nonneg := false,
        txq_first_len := 0, tx_ack_eliciting := false, ack_eliciting := true } =
      some MIN_INI_LEN :=
  c8_client_initial_padded_to_1200 _ rfl rfl rfl rfl (by decide) (by decide) (by decide)

/-! ## C9: at-most-once resolution of a packet number (frame.c dec_ack_frame,
recovery.c on_pkt_acked / on_pkt_lost / detect_lost_pkts)

A packet number is resolved when it enters pn->acked_or_lost; both
on_pkt_acked and on_pkt_lost insert it there and delete the meta from
pn->sent_pkts in the same step.  dec_ack_frame skips a candidate number
that is at or below the cumulative-ACK shortcut or that diet_find locates
in acked_or_lost (frame.c:557-563); detect_lost_pkts only ever iterates
pn->sent_pkts. -/

/-- The pkt_meta fields recovery reads for a sent packet. -/
structure RecPkt where
  nr : Nat
  t : Nat
  in_flight : Bool
  lost : Bool
  udp_len : Nat
  ack_eliciting : Bool
  deriving DecidableEq, Repr

/-- Recovery and congestion state of a connection together with one
packet-number space: rec.cur and the pn_space sets that ACK processing and
loss detection touch. -/
structure RecState where
  sent : List RecPkt
  acked_or_lost : List Nat
  lg_acked : Nat
  cwnd : Nat
  ssthresh : Nat
  in_flight_bytes : Nat
  ae_in_flight : Nat
  rec_start_t : Nat
  rtt : RttState
  tx_frames_eliciting : Bool
  deriving DecidableEq, Repr

/-- diet_insert into a set of packet numbers (already-present numbers leave
the set unchanged). -/
def set_insert (l : List Nat) (n : Nat) : List Nat :=
  if l.contains n then l else n :: l

/-- find_sent_pkt: lookup of a sent packet by number in pn->sent_pkts. -/
def find_sent (sent : List RecPkt) (nr : Nat) : Option RecPkt :=
  sent.find? (fun p => p.nr == nr)

/-- pm_by_nr_del: removal of a sent packet by number. -/
def sent_del (sent : List RecPkt) (nr : Nat) : List RecPkt :=
  sent.filter (fun p => ¬ p.nr = nr)

/-- remove_from_in_flight (recovery.c:272-280). -/
def remove_from_in_flight (st : RecState) (m : RecPkt) : RecState :=
  { st with in_flight_bytes := st.in_flight_bytes - m.udp_len,
            ae_in_flight := st.ae_in_flight - (if m.ack_eliciting then 1 else 0) }

/-- on_pkt_acked_cc (recovery.c:629-645): leave the congestion window alone
while in recovery (sent_t ≤ rec_start_t), else slow-start below ssthresh and
congestion-avoidance above it. -/
def on_pkt_acked_cc (st : RecState) (m : RecPkt) : RecState :=
  let st1 := remove_from_in_flight st m
  if m.t ≤ st1.rec_start_t then st1
  else if st1.cwnd < st1.ssthresh then { st1 with cwnd := st1.cwnd + m.udp_len }
  else { st1 with cwnd := st1.cwnd + kMaxDatagramSize * m.udp_len / st1.cwnd }

/-- on_ack_received_1 (recovery.c:600-616): raise lg_acked (from the
UINT_T_MAX sentinel on the first ACK), and when the space has ack-eliciting
frames outstanding take an RTT sample and run update_rtt. -/
def on_ack_received_1 (now : Nat) (st : RecState) (m : RecPkt)
    (ack_del max_ack_del : Nat) : RecState :=
  let st1 := { st with lg_acked := if st.lg_acked = UINT_T_MAX then m.nr
                                   else max st.lg_acked m.nr }
  if st1.tx_frames_eliciting then
    { st1 with rtt := update_rtt { st1.rtt with latest_rtt := now - m.t } ack_del max_ack_del }
  else st1

/-- on_pkt_acked (recovery.c:648-698) restricted to recovery and congestion
state: the congestion bookkeeping for in-flight non-lost packets, insertion
of the number into acked_or_lost, and deletion from sent_pkts.  (The RTX
stand-in swap, stream-level accounting and API wakeups touch stream and
buffer state only.) -/
def on_pkt_acked (st : RecState) (m : RecPkt) : RecState :=
  let st1 := if m.in_flight && !m.lost then on_pkt_acked_cc st m else st
  { st1 with acked_or_lost := set_insert st1.acked_or_lost m.nr,
             sent := sent_del st1.sent m.nr }

/-- on_pkt_lost (recovery.c:284-338) restricted to recovery and congestion
state: in-flight accounting, insertion of the number into acked_or_lost,
and deletion from sent_pkts (the control-frame RTX bookkeeping touches
connection and stream state only). -/
def on_pkt_lost (st : RecState) (m : RecPkt) : RecState :=
  let st1 := if m.in_flight then remove_from_in_flight st m else st
  { st1 with acked_or_lost := set_insert st1.acked_or_lost m.nr,
             sent := sent_del st1.sent m.nr }

/-- The processing of one candidate ACKed number in dec_ack_frame's range
walk (frame.c:556-581): numbers at or below the cumulative-ACK shortcut
cum_ack are skipped, numbers found in acked_or_lost are skipped, a number
never sent is a PROTOCOL_VIOLATION connection error (none), and otherwise
on_ack_received_1 runs when the number is the frame's largest before
on_pkt_acked resolves the packet. -/
def ack_one (now : Nat) (st : RecState) (ack lg_ack_in_frm cum_ack ack_del max_ack_del : Nat) :
    Option RecState :=
  if cum_ack ≠ UINT_T_MAX ∧ ack ≤ cum_ack then some st
  else if st.acked_or_lost.contains ack then some st
  else
    match find_sent st.sent ack with
    | none => none
    | some m =>
      let st1 := if ack = lg_ack_in_frm then on_ack_received_1 now st m ack_del max_ack_del
                 else st
      some (on_pkt_acked st1 m)

/-- A loss declaration for one packet number: detect_lost_pkts
(recovery.c:373-409) iterates pn->sent_pkts only, so a number without a
sent-packet entry cannot be declared lost; when the entry exists and the
loss condition holds, on_pkt_lost resolves it. -/
def loss_declare (now latest_rtt srtt : Nat) (st : RecState) (nr : Nat) : RecState :=
  match find_sent st.sent nr with
  | none => st
  | some m =>
    if pkt_lost_cond now latest_rtt srtt st.lg_acked { nr := m.nr, t := m.t } then
      on_pkt_lost st m
    else st

/-- C9: once a packet number has been resolved — entered into acked_or_lost,
which on_pkt_acked and on_pkt_lost always pair with its deletion from
sent_pkts — a later ACK for it is skipped (the state, recovery and
congestion included, is returned unchanged) and a later loss declaration
finds no sent packet and also changes nothing; moreover resolving a packet
by either path establishes exactly that configuration. -/
theorem c9_resolved_pkt_noop (now latest_rtt srtt : Nat) (st : RecState)
    (nr lg cum ack_del max_ack_del : Nat)
    (hres : st.acked_or_lost.contains nr = true)
    (hinv : find_sent st.sent nr = none) :
    ack_one now st nr lg cum ack_del max_ack_del = some st ∧
    loss_declare now latest_rtt srtt st nr = st ∧
    (∀ (st' : RecState) (m : RecPkt),
      (on_pkt_acked st' m).acked_or_lost.contains m.nr = true ∧
      find_sent (on_pkt_acked st' m).sent m.nr = none ∧
      (on_pkt_lost st' m).acked_or_lost.contains m.nr = true ∧
      find_sent (on_pkt_lost st' m).sent m.nr = none) := by
  refine ⟨?_, ?_, ?_⟩
  · unfold ack_one
    by_cases h1 : cum ≠ UINT_T_MAX ∧ nr ≤ cum
    · rw [if_pos h1]
    · rw [if_neg h1, if_pos hres]
  · unfold loss_declare
    rw [hinv]
  · intro st' m
    have hins : ∀ l : List Nat, (set_insert l m.nr).contains m.nr = true := by
      intro l
      unfold set_insert
      by_cases h : l.contains m.nr
      · rw [if_pos h]; exact h
      · rw [if_neg h]
        simp [List.contains_cons]
    have hdel : ∀ s : List RecPkt, find_sent (sent_del s m.nr) m.nr = none := by
      intro s
      unfold find_sent sent_del
      rw [List.find?_eq_none]
      intro p hp
      have := List.of_mem_filter hp
      simp only [decide_not, Bool.not_eq_true', decide_eq_false_iff_not] at this
      simp only [beq_iff_eq]
      exact this
    exact ⟨hins _, hdel _, hins _, hdel _⟩

/-- C9 witness: a state in which packet 7 has been resolved while packet 9
is still outstanding; a repeated ACK and a repeated loss declaration for 7
both leave the state untouched. -/
theorem c9_resolved_pkt_noop_witness :
    ack_one 50 { sent := [{ nr := 9, t := 10, in_flight := true, lost := false,
                            udp_len := 1200, ack_eliciting := true }],
                 acked_or_lost := [7], lg_acked := 7, cwnd := 14720,
                 ssthresh := UINT_T_MAX, in_flight_bytes := 1200, ae_in_flight := 1,
                 rec_start_t := 0,
                 rtt := { min_rtt := 10, srtt := 10, rttvar := 5, latest_rtt := 10 },
                 tx_frames_eliciting := true } 7 7 UINT_T_MAX 0 25 =
      some { sent := [{ nr := 9, t := 10, in_flight := true, lost := false,
                        udp_len := 1200, ack_eliciting := true }],
             acked_or_lost := [7], lg_acked := 7, cwnd := 14720,
             ssthresh := UINT_T_MAX, in_flight_bytes := 1200, ae_in_flight := 1,
             rec_start_t := 0,
             rtt := { min_rtt := 10, srtt := 10, rttvar := 5, latest_rtt := 10 },
             tx_frames_eliciting := true } :=
  (c9_resolved_pkt_noop 50 10 10 _ 7 7 UINT_T_MAX 0 25 (by decide) (by decide)).1

/-! ## C10: per-space RX dedupe (pkt.c dec_pkt_hdr_remainder, conn.c rx_pkts)

After packet protection has been verified, dec_pkt_hdr_remainder checks the
packet number against the space's recv_all set (part_001:961-963); a
duplicate returns by way of is_srt — false for anything that is not a
stateless reset — so rx_pkts drops the packet without calling rx_pkt and
dec_frames.  A packet that is processed successfully has its number added to
recv and recv_all (conn.c:1472-1476). -/

/-- Per-space RX state: the two received-number sets and, as the observable
effect of frame processing, the list of packet numbers whose frames were
decoded and applied, in order. -/
structure RxSpace where
  recv : List Nat
  recv_all : List Nat
  processed : List Nat
  deriving DecidableEq, Repr

/-- One inbound packet of this space through dec_pkt_hdr_remainder and
rx_pkts, for a packet that is not a stateless reset and whose frames decode
successfully: a number already in recv_all is dropped before dec_frames
runs; otherwise the frames' side-effects are applied (the number is
appended to processed) and the number enters recv and recv_all. -/
def rx_one (st : RxSpace) (nr : Nat) : RxSpace :=
  if st.recv_all.contains nr then st
  else
    { recv := set_insert st.recv nr
      recv_all := set_insert st.recv_all nr
      processed := st.processed ++ [nr] }

/-- A batch of inbound packets in arrival order. -/
def rx_run (st : RxSpace) (pkts : List Nat) : RxSpace :=
  pkts.foldl rx_one st

/-- Helper for C10: processed numbers always land in recv_all, and a
processed list without duplicates stays duplicate-free. -/
theorem rx_run_invariant (pkts : List Nat) :
    ∀ st : RxSpace,
      (∀ n ∈ st.processed, st.recv_all.contains n = true) → st.processed.Nodup →
      (∀ n ∈ (rx_run st pkts).processed, (rx_run st pkts).recv_all.contains n = true) ∧
      (rx_run st pkts).processed.Nodup := by
  induction pkts with
  | nil => intro st hsub hnd; exact ⟨hsub, hnd⟩
  | cons p ps ih =>
    intro st hsub hnd
    have hstep : ∀ n ∈ (rx_one st p).processed, (rx_one st p).recv_all.contains n = true := by
      intro n hn
      unfold rx_one at hn ⊢
      by_cases h : st.recv_all.contains p
      · rw [if_pos h] at hn ⊢; exact hsub n hn
      · rw [if_neg h] at hn ⊢
        simp only [List.mem_append, List.mem_singleton] at hn
        unfold set_insert
        rw [if_neg h]
        rcases hn with hn | hn
        · have hm : n ∈ st.recv_all := List.elem_iff.1 (hsub n hn)
          simp only [List.contains_cons, Bool.or_eq_true, beq_iff_eq]
          right
          exact List.elem_iff.2 hm
        · subst hn
          simp [List.contains_cons]
    have hnd' : (rx_one st p).processed.Nodup := by
      unfold rx_one
      by_cases h : st.recv_all.contains p
      · rw [if_pos h]; exact hnd
      · rw [if_neg h]
        refine List.Nodup.append hnd (List.nodup_singleton p) ?_
        intro a ha hb
        rcases List.mem_singleton.1 hb with rfl
        exact h (hsub a ha)
    exact ih (rx_one st p) hstep hnd'

/-- C10: a packet whose number is already in recv_all is dropped unchanged —
no frame side-effects, no set updates — and consequently, starting from a
fresh space, the frames of any given packet number are applied at most once
no matter what sequence of packets arrives: the processed list never holds
a duplicate. -/
theorem c10_rx_dedupe_at_most_once :
    (∀ (st : RxSpace) (nr : Nat), st.recv_all.contains nr = true → rx_one st nr = st) ∧
    (∀ pkts : List Nat,
      (rx_run { recv := [], recv_all := [], processed := [] } pkts).processed.Nodup) := by
  constructor
  · intro st nr h
    unfold rx_one
    rw [if_pos h]
  · intro pkts
    exact (rx_run_invariant pkts { recv := [], recv_all := [], processed := [] }
      (by intro n hn; cases hn) List.nodup_nil).2

/-- C10 witness: a duplicate of packet 3 is dropped unchanged, and the batch
3, 4, 3 processes each number's frames at most once. -/
theorem c10_rx_dedupe_at_most_once_witness :
    rx_one { recv := [3], recv_all := [3], processed := [3] } 3 =
      { recv := [3], recv_all := [3], processed := [3] } ∧
    (rx_run { recv := [], recv_all := [], processed := [] } [3, 4, 3]).processed.Nodup :=
  ⟨c10_rx_dedupe_at_most_once.1 _ 3 (by decide),
   c10_rx_dedupe_at_most_once.2 [3, 4, 3]⟩

end Quant
